import Mathlib

/-
Verification of the sales transaction engine of the Pos-Sales backend
(`src/rutes/sales.js`).  The router's handlers are embedded as pure Lean
functions over an explicit relational state: the tables `productos`,
`clientes`, `ventas`, `venta_detalles` and `user_permissions` become lists
of records, a transaction becomes a pure state transformer that returns
the ORIGINAL state on any thrown error (modelling BEGIN/ROLLBACK), and the
JSON request bodies become records whose loosely-typed fields (`total`,
`recibido`, `cambio`) are modelled by a small JSON-value type so that the
handler's `== null` / falsiness checks keep their JavaScript meaning.
Money amounts (`deuda`, `saldo_pendiente`, prices, `monto`) are modelled
as exact rationals, quantities and stock as integers.
-/

namespace PosSales

/-- JSON-ish value for the loosely typed money fields of the request body:
`jnull` covers both `null` and an absent field (so `x == null` in JS is
exactly `isJNull`), `jnum` a numeric value, `jstr` a string value. -/
inductive JVal where
  | jnull
  | jnum (x : Rat)
  | jstr (s : String)
deriving DecidableEq, Repr

/-- True exactly when the JS loose comparison `v == null` is true. -/
def isJNull : JVal → Bool
  | .jnull => true
  | _ => false

/-- One element of the request's `items` array:
`{producto_id, cantidad, precio}`. -/
structure Item where
  producto_id : Int
  cantidad : Int
  precio : Rat
deriving DecidableEq, Repr

/-- A row of the `productos` table (the columns read by the sales router:
`SELECT name, purchase_price, stock`, plus `sku` read by the detail join). -/
structure Producto where
  id : Int
  sku : String
  name : String
  purchase_price : Rat
  stock : Int
deriving DecidableEq, Repr

/-- A row of the `clientes` table (columns used by the router). -/
structure Cliente where
  id : Int
  nombre : String
  saldo_pendiente : Rat
deriving DecidableEq, Repr

/-- A row of the `ventas` table.  The loosely typed `total`, `recibido`,
`cambio` are stored exactly as received (the INSERT passes them through);
`deuda` is stored as the parsed `deudaFinal`; `fecha` is the DB timestamp
(`now` of the state at insertion time), modelled as an integer instant. -/
structure Venta where
  id : Nat
  total : JVal
  recibido : JVal
  cambio : JVal
  metodo_pago : String
  cliente_id : Option Int
  deuda : Rat
  user_id : Int
  titular_transferencia : Option String
  banco_transferencia : Option String
  fecha : Int
deriving DecidableEq, Repr

/-- A row of the `venta_detalles` table. -/
structure VentaDetalle where
  venta_id : Nat
  producto_id : Int
  cantidad : Int
  precio : Rat
  purchase_price : Rat
deriving DecidableEq, Repr

/-- The permission blob stored per user in `user_permissions` (the keys
used by the router and by the default set of lines 28-39). -/
structure Perms where
  can_view_products : Bool
  can_edit_products : Bool
  can_delete_products : Bool
  can_create_products : Bool
  can_view_sales : Bool
  can_create_sales : Bool
  can_view_customers : Bool
  can_edit_customers : Bool
  can_view_reports : Bool
  can_manage_stock : Bool
deriving DecidableEq, Repr

/-- The database state visible to the sales router.  `nextVentaId` models
the serial primary key of `ventas` (the `RETURNING id` of the INSERT),
`now` the DB clock used for the `fecha` default. -/
structure State where
  productos : List Producto
  clientes : List Cliente
  ventas : List Venta
  venta_detalles : List VentaDetalle
  user_permissions : List (Int × Perms)
  nextVentaId : Nat
  now : Int
deriving DecidableEq, Repr

/-- The authenticated principal `req.user` (`{id, rol}`), `rol` kept as a
string because the code compares it with string literals. -/
structure User where
  id : Int
  rol : String
deriving DecidableEq, Repr

/-- Row lookup `SELECT permissions FROM user_permissions WHERE user_id = $1`. -/
def lookupPermissions (st : State) (uid : Int) : Option Perms :=
  (st.user_permissions.find? (fun r => r.1 == uid)).map (·.2)

/-- The hardcoded default permission set used by the middleware when no
`user_permissions` row exists (sales.js lines 28-39). -/
def defaultVendedorPerms : Perms :=
  { can_view_products := true
    can_edit_products := false
    can_delete_products := false
    can_create_products := false
    can_view_sales := true
    can_create_sales := true
    can_view_customers := true
    can_edit_customers := false
    can_view_reports := false
    can_manage_stock := false }

/-- The middleware `verificarPermisosVentas(permisoRequerido)`: admins are
always allowed, a `vendedor` is allowed when the required key of their
resolved permission set (stored row, else the default set) is true, any
other role is denied. -/
def verificarPermisosVentas (st : State) (u : User) (permisoRequerido : Perms → Bool) : Bool :=
  if u.rol = "admin" then true
  else if u.rol = "vendedor" then
    permisoRequerido ((lookupPermissions st u.id).getD defaultVendedorPerms)
  else false

/-- Lookup `SELECT ... FROM productos WHERE id = $1`. -/
def findProducto (st : State) (pid : Int) : Option Producto :=
  st.productos.find? (fun p => p.id == pid)

/-- Lookup `SELECT id, nombre FROM clientes WHERE id = $1`. -/
def findCliente (st : State) (cid : Int) : Option Cliente :=
  st.clientes.find? (fun c => c.id == cid)

/-- Lookup `SELECT id, cliente_id, deuda, user_id FROM ventas WHERE id = $1`. -/
def findVenta (st : State) (vid : Nat) : Option Venta :=
  st.ventas.find? (fun v => v.id == vid)

/-- The statement `UPDATE productos SET stock = stock - $1 WHERE id = $2`. -/
def updateStock (st : State) (pid : Int) (cantidad : Int) : State :=
  { st with productos := st.productos.map (fun p =>
      if p.id = pid then { p with stock := p.stock - cantidad } else p) }

/-- The statement
`UPDATE clientes SET saldo_pendiente = saldo_pendiente + $1 WHERE id = $2`. -/
def addSaldo (st : State) (cid : Int) (d : Rat) : State :=
  { st with clientes := st.clientes.map (fun c =>
      if c.id = cid then { c with saldo_pendiente := c.saldo_pendiente + d } else c) }

/-- The statement
`UPDATE clientes SET saldo_pendiente = saldo_pendiente - $1 WHERE id = $2`. -/
def subSaldo (st : State) (cid : Int) (p : Rat) : State :=
  { st with clientes := st.clientes.map (fun c =>
      if c.id = cid then { c with saldo_pendiente := c.saldo_pendiente - p } else c) }

/-- The statement `UPDATE ventas SET deuda = $1 WHERE id = $2`. -/
def setDeudaVenta (st : State) (vid : Nat) (d : Rat) : State :=
  { st with ventas := st.ventas.map (fun v =>
      if v.id = vid then { v with deuda := d } else v) }

/-- The in-transaction `can_edit_customers` resolution of sales.js lines
180-188 and 310-318: the stored row's flag, with default
`{can_edit_customers: false}` when no row exists. -/
def canEditCustomersTx (st : State) (uid : Int) : Bool :=
  match lookupPermissions st uid with
  | some p => p.can_edit_customers
  | none => false

/-- The errors thrown inside the sale-recording transaction, carrying the
identifying data of the messages
`Producto con ID ... no encontrado` and `Stock insuficiente para ...`. -/
inductive TxError where
  | productoNoEncontrado (producto_id : Int)
  | stockInsuficiente (name : String)
deriving DecidableEq, Repr

/-- The item loop of sales.js lines 129-158: for each item look the
product up (throw if missing), check `cantidad > stock` (throw if so),
insert the `venta_detalles` row with the product's current
`purchase_price`, then run the unconditional stock decrement.  A thrown
error aborts the whole loop. -/
def procesarItems (ventaId : Nat) : List Item → State → Except TxError State
  | [], st => .ok st
  | item :: rest, st =>
    match findProducto st item.producto_id with
    | none => .error (.productoNoEncontrado item.producto_id)
    | some producto =>
      if producto.stock < item.cantidad then
        .error (.stockInsuficiente producto.name)
      else
        let st1 := { st with venta_detalles := st.venta_detalles ++
          [{ venta_id := ventaId, producto_id := item.producto_id,
             cantidad := item.cantidad, precio := item.precio,
             purchase_price := producto.purchase_price }] }
        procesarItems ventaId rest (updateStock st1 item.producto_id item.cantidad)

/-- The request body of `POST /sales`.  `metodo_pago` is a string whose
empty value plays the falsy case of `!metodo_pago`; `cliente_id` and
`user_id` are numeric-or-absent; `deuda` defaults to 0 when absent;
`items = none` models a non-array value (so `Array.isArray` fails),
`items = some l` an array (the destructuring default `[]` for an absent
field is `some []`); `titular`/`banco` model `transfer?.titular || null`
and `transfer?.banco || null`. -/
structure RawSaleInput where
  total : JVal
  recibido : JVal
  cambio : JVal
  metodo_pago : String
  cliente_id : Option Int
  deuda : Option Rat
  user_id : Option Int
  items : Option (List Item)
  titular : Option String
  banco : Option String
deriving DecidableEq, Repr

/-- JS falsiness of the numeric-or-absent `user_id` (`!user_id`): true for
absent/null and for 0. -/
def userIdFalsy : Option Int → Bool
  | none => true
  | some n => n == 0

/-- The validation of sales.js line 82:
`total == null || recibido == null || cambio == null || !metodo_pago || !user_id || !Array.isArray(items)`. -/
def datosIncompletos (i : RawSaleInput) : Bool :=
  isJNull i.total || isJNull i.recibido || isJNull i.cambio ||
  i.metodo_pago == "" || userIdFalsy i.user_id || i.items.isNone

/-- Normalisation `cliente_id ? parseInt(cliente_id) : null` (a falsy 0
becomes null). -/
def clienteIdFinal (i : RawSaleInput) : Option Int :=
  match i.cliente_id with
  | none => none
  | some n => if n = 0 then none else some n

/-- Normalisation `parseFloat(deuda) || 0` for the numeric-or-absent
`deuda` field. -/
def deudaFinal (i : RawSaleInput) : Rat :=
  i.deuda.getD 0

/-- The `ventas` row inserted by sales.js lines 104-121, with the serial
id `st.nextVentaId` and the DB timestamp `st.now`. -/
def nuevaVenta (st : State) (i : RawSaleInput) : Venta :=
  { id := st.nextVentaId
    total := i.total
    recibido := i.recibido
    cambio := i.cambio
    metodo_pago := i.metodo_pago
    cliente_id := clienteIdFinal i
    deuda := deudaFinal i
    user_id := i.user_id.getD 0
    titular_transferencia := i.titular
    banco_transferencia := i.banco
    fecha := st.now }

/-- The customer-balance step of sales.js lines 160-207: only when a
(truthy) `cliente_id` was supplied and `deudaFinal > 0`; a missing
customer row is skipped non-fatally; a `vendedor` without
`can_edit_customers` is skipped non-fatally; otherwise
`saldo_pendiente += deudaFinal`. -/
def actualizarSaldoVenta (st : State) (u : User) (cid? : Option Int) (d : Rat) : State :=
  match cid? with
  | none => st
  | some cid =>
    if 0 < d then
      match findCliente st cid with
      | none => st
      | some _ =>
        if u.rol = "vendedor" then
          if canEditCustomersTx st u.id then addSaldo st cid d else st
        else addSaldo st cid d
    else st

/-- Responses of `POST /sales`: 400 invalid input, 500 with the thrown
transaction error (after ROLLBACK), or the success body
`{success, venta_id, deuda_guardada}`. -/
inductive SaleResponse where
  | invalidInput
  | txError (e : TxError)
  | ok (venta_id : Nat) (deuda_guardada : Rat)
deriving DecidableEq, Repr

/-- The state right after the header INSERT of sales.js lines 104-121:
the new `ventas` row is appended and the serial advances. -/
def stConVenta (st : State) (i : RawSaleInput) : State :=
  { st with
    ventas := st.ventas ++ [nuevaVenta st i]
    nextVentaId := st.nextVentaId + 1 }

/-- The `POST /sales` handler body (sales.js lines 66-237): validate,
BEGIN, insert the sale header, run the item loop, run the customer-balance
step, COMMIT; any thrown error rolls the state back to the original. -/
def recordSale (st : State) (u : User) (i : RawSaleInput) : SaleResponse × State :=
  if datosIncompletos i then (.invalidInput, st)
  else
    match procesarItems st.nextVentaId (i.items.getD []) (stConVenta st i) with
    | .error e => (.txError e, st)
    | .ok st2 =>
      (.ok st.nextVentaId (deudaFinal i),
       actualizarSaldoVenta st2 u (clienteIdFinal i) (deudaFinal i))

/-- Responses of `POST /sales/:id/pagar-deuda`: 400 invalid amount,
404 missing sale, 400 no outstanding debt, 403 not the creator, or the
success body
`{pago_registrado, deuda_anterior, deuda_actualizada, cliente_actualizado}`. -/
inductive PayResponse where
  | montoInvalido
  | ventaNoEncontrada
  | sinDeuda
  | prohibido
  | ok (pago_registrado deuda_anterior deuda_actualizada : Rat)
      (cliente_actualizado : Bool)
deriving DecidableEq, Repr

/-- The `POST /sales/:id/pagar-deuda` handler body (sales.js lines
239-373).  `monto = none` models an absent/NaN amount (rejected by
`!monto || isNaN(monto)`); the clamp is `pago = min(monto, deudaActual)`;
the customer decrement is gated exactly like the sale-recording step. -/
def applyPayment (st : State) (u : User) (saleId : Nat) (monto : Option Rat) :
    PayResponse × State :=
  match monto with
  | none => (.montoInvalido, st)
  | some m =>
    if m ≤ 0 then (.montoInvalido, st)
    else
      match findVenta st saleId with
      | none => (.ventaNoEncontrada, st)
      | some venta =>
        let deudaActual := venta.deuda
        if deudaActual ≤ 0 then (.sinDeuda, st)
        else if u.rol ≠ "admin" ∧ venta.user_id ≠ u.id then (.prohibido, st)
        else
          let pago := min m deudaActual
          let nuevaDeuda := deudaActual - pago
          let st1 := setDeudaVenta st saleId nuevaDeuda
          match venta.cliente_id with
          | none => (.ok pago deudaActual nuevaDeuda false, st1)
          | some cid =>
            if u.rol = "vendedor" then
              if canEditCustomersTx st u.id then
                (.ok pago deudaActual nuevaDeuda true, subSaldo st1 cid pago)
              else (.ok pago deudaActual nuevaDeuda false, st1)
            else (.ok pago deudaActual nuevaDeuda true, subSaldo st1 cid pago)

/-- Calendar boundaries supplied by the database's `CURRENT_DATE` /
`date_trunc` arithmetic, as abstract instants: `startOfDay = CURRENT_DATE`,
`nextDay = CURRENT_DATE + INTERVAL 1 day`, and likewise for the
week/month/year truncations. -/
structure Clock where
  startOfDay : Int
  nextDay : Int
  startOfWeek : Int
  nextWeek : Int
  startOfMonth : Int
  nextMonth : Int
  startOfYear : Int
  nextYear : Int
deriving DecidableEq, Repr

/-- The date condition pushed by sales.js lines 405-413: a recognised
keyword adds its half-open window, any other value of `filtro` (including
absence) adds no condition. -/
def filtroCond (clk : Clock) (filtro : Option String) (fecha : Int) : Bool :=
  match filtro with
  | some "hoy" => clk.startOfDay ≤ fecha && fecha < clk.nextDay
  | some "semana" => clk.startOfWeek ≤ fecha && fecha < clk.nextWeek
  | some "mes" => clk.startOfMonth ≤ fecha && fecha < clk.nextMonth
  | some "anio" => clk.startOfYear ≤ fecha && fecha < clk.nextYear
  | _ => true

/-- The visibility condition pushed by sales.js lines 399-402:
`v.user_id = caller.id` for a `vendedor`, no condition otherwise. -/
def visibleTo (u : User) (v : Venta) : Bool :=
  if u.rol = "vendedor" then v.user_id == u.id else true

/-- The `GET /sales` handler body (sales.js lines 376-434): the rows of
`ventas` satisfying the vendedor-visibility and date conditions, ordered
by `fecha DESC`.  The two LEFT JOINs only decorate each row with
`cliente_nombre`/`cliente_rut`/`user_nombre` display columns and never
remove or duplicate a `ventas` row (they join on the primary keys of
`clientes`/`usuarios`), so the result is modelled as the bare rows. -/
def listSales (st : State) (clk : Clock) (u : User) (filtro : Option String) :
    List Venta :=
  (st.ventas.filter (fun v => visibleTo u v && filtroCond clk filtro v.fecha)).mergeSort
    (fun a b => b.fecha ≤ a.fecha)

/-- A row of the detail query's result: the `venta_detalles` columns plus
the joined `producto_nombre` and `sku`. -/
structure DetalleRow where
  detalle : VentaDetalle
  producto_nombre : String
  sku : String
deriving DecidableEq, Repr

/-- Responses of `GET /sales/:id/detalles`: middleware 403, 400 for a
non-numeric id, or the (possibly empty) joined row list. -/
inductive DetalleResponse where
  | denied
  | invalidId
  | ok (rows : List DetalleRow)
deriving DecidableEq, Repr

/-- The `GET /sales/:id/detalles` route (sales.js lines 437-466),
including its `verificarPermisosVentas("can_view_sales")` middleware.
`idParam = none` models a non-numeric `:id` (the `isNaN` rejection).  The
query inner-joins `venta_detalles` rows of the sale with `productos` on
the product primary key; a detail row whose product is missing is dropped
by the JOIN. -/
def getSaleDetalles (st : State) (u : User) (idParam : Option Nat) : DetalleResponse :=
  if verificarPermisosVentas st u (·.can_view_sales) then
    match idParam with
    | none => .invalidId
    | some id =>
      .ok ((st.venta_detalles.filter (fun d => d.venta_id == id)).filterMap
        (fun d => (findProducto st d.producto_id).map
          (fun p => { detalle := d, producto_nombre := p.name, sku := p.sku })))
  else .denied

/-- Total quantity a sale's item list requests of one product id. -/
def totalQty : List Item → Int → Int
  | [], _ => 0
  | it :: rest, pid =>
    (if it.producto_id = pid then it.cantidad else 0) + totalQty rest pid

/-- A line item that fails the checks of sales.js lines 137-145 against a
given database state: its product is missing, or its quantity exceeds the
product's current stock. -/
def badItem (st : State) (it : Item) : Prop :=
  findProducto st it.producto_id = none ∨
  ∃ p, findProducto st it.producto_id = some p ∧ p.stock < it.cantidad

/-- Debt recorded on a sale row, as seen by a later query. -/
def deudaOf (st : State) (vid : Nat) : Option Rat :=
  (findVenta st vid).map (·.deuda)

/-- Outstanding balance of a customer row, as seen by a later query. -/
def saldoOf (st : State) (cid : Int) : Option Rat :=
  (findCliente st cid).map (·.saldo_pendiente)

/-- Shared state of two concurrent single-item sale requests against the
same product row: the committed `stock` value, and per-request program
counter, local snapshot of the SELECTed stock, and failure flag. -/
structure RaceState where
  stock : Int
  pcA : Nat
  pcB : Nat
  localA : Int
  localB : Int
  failedA : Bool
  failedB : Bool
deriving DecidableEq, Repr

/-- One step of request A (`t = true`) or B (`t = false`), each running
the per-item body of sales.js lines 132-157 for one item of quantity
`qA`/`qB`: step 0 is the `SELECT ... stock FROM productos WHERE id = $1`
read into a local snapshot; step 1 is the JS check `item.cantidad >
producto.stock` against that LOCAL snapshot (setting the failure flag,
i.e. throwing, when it fails) and otherwise the
`UPDATE productos SET stock = stock - $1`, which the database applies to
the CURRENT shared row value.  This is exactly the read-then-write shape
of the source: the guard reads the snapshot while the decrement is
unconditional on the shared value. -/
def raceStep (qA qB : Int) (t : Bool) (s : RaceState) : RaceState :=
  if t then
    match s.pcA with
    | 0 => { s with localA := s.stock, pcA := 1 }
    | 1 =>
      if s.localA < qA then { s with failedA := true, pcA := 2 }
      else { s with stock := s.stock - qA, pcA := 2 }
    | _ => s
  else
    match s.pcB with
    | 0 => { s with localB := s.stock, pcB := 1 }
    | 1 =>
      if s.localB < qB then { s with failedB := true, pcB := 2 }
      else { s with stock := s.stock - qB, pcB := 2 }
    | _ => s

/-- Run the two concurrent requests under a given interleaving schedule. -/
def raceRun (qA qB : Int) (sched : List Bool) (s : RaceState) : RaceState :=
  sched.foldl (fun s t => raceStep qA qB t s) s

/-- Both requests at their first step, product stock at `s0`. -/
def raceStart (s0 : Int) : RaceState :=
  { stock := s0, pcA := 0, pcB := 0, localA := 0, localB := 0,
    failedA := false, failedB := false }

/- ===== concrete fixtures used by witnesses and counterexamples ===== -/

/-- Fixture: an admin caller. -/
def adminUser : User := { id := 1, rol := "admin" }

/-- Fixture: a vendedor caller with id 2. -/
def vendedor2 : User := { id := 2, rol := "vendedor" }

/-- Fixture: a vendedor caller with id 3. -/
def vendedor3 : User := { id := 3, rol := "vendedor" }

/-- Fixture: a product with stock 10. -/
def prodAgua : Producto :=
  { id := 5, sku := "A-5", name := "Agua", purchase_price := 3, stock := 10 }

/-- Fixture: a customer with outstanding balance 30. -/
def clienteJuan : Cliente := { id := 7, nombre := "Juan", saldo_pendiente := 30 }

/-- Fixture: a credit sale by user 2 with outstanding debt 30. -/
def ventaCredito : Venta :=
  { id := 1, total := .jnum 100, recibido := .jnum 70, cambio := .jnum 0,
    metodo_pago := "efectivo", cliente_id := some 7, deuda := 30, user_id := 2,
    titular_transferencia := none, banco_transferencia := none, fecha := 50 }

/-- Fixture: a database holding the product, the customer and the credit
sale, with no stored permission rows. -/
def stBase : State :=
  { productos := [prodAgua], clientes := [clienteJuan], ventas := [ventaCredito],
    venta_detalles := [], user_permissions := [], nextVentaId := 2, now := 100 }

/-- Fixture: a sale request whose `total` is present but the non-numeric
string value abc, all other fields well formed, no items. -/
def inputTotalString : RawSaleInput :=
  { total := .jstr "abc", recibido := .jnum 0, cambio := .jnum 0,
    metodo_pago := "efectivo", cliente_id := none, deuda := none,
    user_id := some 1, items := some [], titular := none, banco := none }

/-- Fixture: a sale request with `total` absent. -/
def inputSinTotal : RawSaleInput :=
  { total := .jnull, recibido := .jnum 0, cambio := .jnum 0,
    metodo_pago := "efectivo", cliente_id := none, deuda := none,
    user_id := some 1, items := some [], titular := none, banco := none }

/-- Fixture: a sale request for 2 units of product 5. -/
def inputVentaAgua : RawSaleInput :=
  { total := .jnum 100, recibido := .jnum 100, cambio := .jnum 0,
    metodo_pago := "efectivo", cliente_id := none, deuda := none,
    user_id := some 1, items := some [{ producto_id := 5, cantidad := 2, precio := 50 }],
    titular := none, banco := none }

/-- Fixture: a credit sale request for customer 7 with debt 30 and no
line items. -/
def inputVentaCredito : RawSaleInput :=
  { total := .jnum 100, recibido := .jnum 70, cambio := .jnum 0,
    metodo_pago := "efectivo", cliente_id := some 7, deuda := some 30,
    user_id := some 1, items := some [], titular := none, banco := none }

/-- Fixture: a sale request whose single line item references the
nonexistent product 99. -/
def inputProductoFaltante : RawSaleInput :=
  { total := .jnum 10, recibido := .jnum 10, cambio := .jnum 0,
    metodo_pago := "efectivo", cliente_id := none, deuda := none,
    user_id := some 1, items := some [{ producto_id := 99, cantidad := 1, precio := 10 }],
    titular := none, banco := none }

/-- Fixture: calendar boundaries where the current day is the window
`[100, 200)`, inside week `[0, 700)`, month `[0, 3000)`, year `[0, 36500)`. -/
def demoClock : Clock :=
  { startOfDay := 100, nextDay := 200, startOfWeek := 0, nextWeek := 700,
    startOfMonth := 0, nextMonth := 3000, startOfYear := 0, nextYear := 36500 }

/-- Fixture: the base database with one `venta_detalles` row for sale 1. -/
def stDetalles : State :=
  { stBase with venta_detalles :=
      [{ venta_id := 1, producto_id := 5, cantidad := 2, precio := 50,
         purchase_price := 3 }] }

/- ===== helper lemmas ===== -/

/-- The JS check `v == null` holds exactly for the null/absent value. -/
theorem isJNull_iff (v : JVal) : isJNull v = true ↔ v = .jnull := by
  cases v <;> simp [isJNull]

/-- The JS check `!user_id` holds exactly for an absent or zero id. -/
theorem userIdFalsy_iff (o : Option Int) :
    userIdFalsy o = true ↔ o = none ∨ o = some 0 := by
  cases o with
  | none => simp [userIdFalsy]
  | some n => simp [userIdFalsy]

/-- A `find?` commutes with mapping a function that preserves the search
predicate. -/
theorem find?_map_comm {α : Type} (f : α → α) (q : α → Bool)
    (h : ∀ a, q (f a) = q a) :
    ∀ l : List α, (l.map f).find? q = (l.find? q).map f := by
  intro l
  induction l with
  | nil => rfl
  | cons a l ih =>
    by_cases hq : q a
    · simp [List.find?_cons, h a, hq]
    · simp [List.find?_cons, h a, hq, ih]

/-- After `UPDATE ventas SET deuda = $1 WHERE id = $2`, the sale's stored
debt is the written value. -/
theorem deudaOf_setDeudaVenta (st : State) (vid : Nat) (d : Rat) (v : Venta)
    (hv : findVenta st vid = some v) :
    deudaOf (setDeudaVenta st vid d) vid = some d := by
  have hpred : ∀ a : Venta,
      (((if a.id = vid then { a with deuda := d } else a).id == vid)) = (a.id == vid) := by
    intro a; by_cases hid : a.id = vid <;> simp [hid]
  unfold findVenta at hv
  unfold deudaOf findVenta setDeudaVenta
  rw [find?_map_comm _ _ hpred, hv]
  have hvid : v.id = vid := by simpa using List.find?_some hv
  simp [hvid]

/-- After the customer-balance increment, the customer's stored balance
grew by the increment. -/
theorem saldoOf_addSaldo (st : State) (cid : Int) (d : Rat) (c : Cliente)
    (hc : findCliente st cid = some c) :
    saldoOf (addSaldo st cid d) cid = some (c.saldo_pendiente + d) := by
  have hpred : ∀ a : Cliente,
      (((if a.id = cid then { a with saldo_pendiente := a.saldo_pendiente + d } else a).id ==
        cid)) = (a.id == cid) := by
    intro a; by_cases hid : a.id = cid <;> simp [hid]
  unfold findCliente at hc
  unfold saldoOf findCliente addSaldo
  rw [find?_map_comm _ _ hpred, hc]
  have hcid : c.id = cid := by simpa using List.find?_some hc
  simp [hcid]

/-- After the customer-balance decrement, the customer's stored balance
shrank by the decrement. -/
theorem saldoOf_subSaldo (st : State) (cid : Int) (p : Rat) (c : Cliente)
    (hc : findCliente st cid = some c) :
    saldoOf (subSaldo st cid p) cid = some (c.saldo_pendiente - p) := by
  have hpred : ∀ a : Cliente,
      (((if a.id = cid then { a with saldo_pendiente := a.saldo_pendiente - p } else a).id ==
        cid)) = (a.id == cid) := by
    intro a; by_cases hid : a.id = cid <;> simp [hid]
  unfold findCliente at hc
  unfold saldoOf findCliente subSaldo
  rw [find?_map_comm _ _ hpred, hc]
  have hcid : c.id = cid := by simpa using List.find?_some hc
  simp [hcid]

/-- Looking a product up after the stock decrement of another (or the
same) product id: the decrement is applied pointwise to the found row. -/
theorem findProducto_updateStock (st : State) (pid0 q pid : Int) :
    findProducto (updateStock st pid0 q) pid =
      (findProducto st pid).map
        (fun p => if p.id = pid0 then { p with stock := p.stock - q } else p) := by
  unfold findProducto updateStock
  exact find?_map_comm _ _
    (fun a => by by_cases h : a.id = pid0 <;> simp [h]) _

/-- Requested quantities summed per product are nonnegative when every
line quantity is. -/
theorem totalQty_nonneg (items : List Item) (pid : Int)
    (hnn : ∀ it ∈ items, 0 ≤ it.cantidad) : 0 ≤ totalQty items pid := by
  induction items with
  | nil => simp [totalQty]
  | cons it rest ih =>
    have h1 := hnn it (List.mem_cons_self it rest)
    have h2 := ih (fun it' h => hnn it' (List.mem_cons_of_mem _ h))
    by_cases hid : it.producto_id = pid <;> simp [totalQty, hid] <;> omega

/-- The item loop touches only `productos` and `venta_detalles`:
every other table (and the serial and clock) is unchanged on success. -/
theorem procesarItems_preserves (vid : Nat) (items : List Item) :
    ∀ st st' : State, procesarItems vid items st = .ok st' →
      st'.clientes = st.clientes ∧ st'.ventas = st.ventas ∧
      st'.user_permissions = st.user_permissions ∧
      st'.nextVentaId = st.nextVentaId ∧ st'.now = st.now := by
  induction items with
  | nil =>
    intro st st' h
    simp only [procesarItems, Except.ok.injEq] at h
    subst h
    exact ⟨rfl, rfl, rfl, rfl, rfl⟩
  | cons it rest ih =>
    intro st st' h
    simp only [procesarItems] at h
    rcases hf : findProducto st it.producto_id with _ | p
    · rw [hf] at h; cases h
    · rw [hf] at h
      dsimp only at h
      by_cases hs : p.stock < it.cantidad
      · rw [if_pos hs] at h; cases h
      · rw [if_neg hs] at h
        have h2 := ih _ _ h
        exact h2

/-- A failing item stays failing after a nonnegative stock decrement:
a missing product stays missing, and an over-stock quantity stays
over-stock because stock only shrinks. -/
theorem badItem_updateStock (st : State) (pid0 q : Int) (hq : 0 ≤ q) (it : Item)
    (h : badItem st it) : badItem (updateStock st pid0 q) it := by
  rcases h with hnone | ⟨p, hp, hlt⟩
  · left
    rw [findProducto_updateStock, hnone]
    rfl
  · right
    refine ⟨_, by rw [findProducto_updateStock, hp]; rfl, ?_⟩
    by_cases hid : p.id = pid0 <;> simp [hid] <;> omega

/-- If every quantity is nonnegative and some item of the list fails its
check against the current state, the item loop throws. -/
theorem procesarItems_error (vid : Nat) (items : List Item) :
    ∀ st : State, (∀ it ∈ items, 0 ≤ it.cantidad) →
    (∃ it ∈ items, badItem st it) →
    ∃ e, procesarItems vid items st = .error e := by
  induction items with
  | nil =>
    intro st _ hbad
    obtain ⟨it, hmem, _⟩ := hbad
    cases hmem
  | cons it rest ih =>
    intro st hnn hbad
    rcases hf : findProducto st it.producto_id with _ | p
    · exact ⟨.productoNoEncontrado it.producto_id, by simp [procesarItems, hf]⟩
    · by_cases hs : p.stock < it.cantidad
      · exact ⟨.stockInsuficiente p.name, by simp [procesarItems, hf, hs]⟩
      · have hbadrest : ∃ it' ∈ rest, badItem st it' := by
          obtain ⟨it', hmem, hb⟩ := hbad
          rcases List.mem_cons.mp hmem with heq | hmem'
          · subst heq
            exfalso
            rcases hb with hnone | ⟨p', hp', hlt⟩
            · rw [hf] at hnone; cases hnone
            · rw [hf] at hp'
              injection hp' with hpe
              subst hpe
              exact hs hlt
          · exact ⟨it', hmem', hb⟩
        have hq := hnn it (List.mem_cons_self it rest)
        obtain ⟨it', hmem', hb'⟩ := hbadrest
        obtain ⟨e, he⟩ := ih
          (updateStock { st with venta_detalles := st.venta_detalles ++
            [{ venta_id := vid, producto_id := it.producto_id,
               cantidad := it.cantidad, precio := it.precio,
               purchase_price := p.purchase_price }] } it.producto_id it.cantidad)
          (fun it'' h => hnn it'' (List.mem_cons_of_mem _ h))
          ⟨it', hmem', badItem_updateStock _ it.producto_id it.cantidad hq it' hb'⟩
        exact ⟨e, by simp only [procesarItems, hf, if_neg hs]; exact he⟩

/-- If every item's product exists, every quantity is nonnegative, and
the quantities summed per product fit within each product's stock, the
item loop succeeds and each product's stock drops by exactly the summed
quantity requested of it. -/
theorem procesarItems_ok (vid : Nat) (items : List Item) :
    ∀ st : State,
    (∀ it ∈ items, (findProducto st it.producto_id).isSome) →
    (∀ it ∈ items, 0 ≤ it.cantidad) →
    (∀ p ∈ st.productos, totalQty items p.id ≤ p.stock) →
    ∃ st', procesarItems vid items st = .ok st' ∧
      st'.productos = st.productos.map
        (fun p => { p with stock := p.stock - totalQty items p.id }) := by
  induction items with
  | nil =>
    intro st _ _ _
    refine ⟨st, rfl, ?_⟩
    have hid : ∀ p ∈ st.productos,
        ({ p with stock := p.stock - totalQty [] p.id } : Producto) = p := by
      intro p _
      simp [totalQty]
    rw [List.map_congr_left hid]
    simp
  | cons it rest ih =>
    intro st hex hnn hcap
    have hexh := hex it (List.mem_cons_self it rest)
    rcases hfp : findProducto st it.producto_id with _ | p
    · rw [hfp] at hexh; cases hexh
    · have hpmem : p ∈ st.productos := List.mem_of_find?_eq_some hfp
      have hpid : p.id = it.producto_id := by simpa using List.find?_some hfp
      have hq0 : 0 ≤ totalQty rest p.id :=
        totalQty_nonneg rest p.id (fun it' h => hnn it' (List.mem_cons_of_mem _ h))
      have hcons : totalQty (it :: rest) p.id = it.cantidad + totalQty rest p.id := by
        simp [totalQty, hpid.symm]
      have hchk : ¬ (p.stock < it.cantidad) := by
        have hcapp := hcap p hpmem
        omega
      set st2 := updateStock { st with venta_detalles := st.venta_detalles ++
        [{ venta_id := vid, producto_id := it.producto_id,
           cantidad := it.cantidad, precio := it.precio,
           purchase_price := p.purchase_price }] } it.producto_id it.cantidad with hst2
      have hprod2 : st2.productos = st.productos.map
          (fun q => if q.id = it.producto_id then { q with stock := q.stock - it.cantidad }
            else q) := rfl
      have hex2 : ∀ it' ∈ rest, (findProducto st2 it'.producto_id).isSome := by
        intro it' hm
        have hsome := hex it' (List.mem_cons_of_mem _ hm)
        rcases hfp' : findProducto st it'.producto_id with _ | q
        · rw [hfp'] at hsome; cases hsome
        · have : findProducto st2 it'.producto_id =
              (findProducto st it'.producto_id).map
                (fun q => if q.id = it.producto_id then
                  { q with stock := q.stock - it.cantidad } else q) :=
            findProducto_updateStock _ it.producto_id it.cantidad it'.producto_id
          rw [this, hfp']
          rfl
      have hnn2 : ∀ it' ∈ rest, 0 ≤ it'.cantidad :=
        fun it' h => hnn it' (List.mem_cons_of_mem _ h)
      have hcap2 : ∀ q ∈ st2.productos, totalQty rest q.id ≤ q.stock := by
        intro q hm
        rw [hprod2] at hm
        obtain ⟨q0, hq0mem, hq0eq⟩ := List.mem_map.mp hm
        have hcapq := hcap q0 hq0mem
        by_cases hidq : q0.id = it.producto_id
        · have hcons0 : totalQty (it :: rest) q0.id = it.cantidad + totalQty rest q0.id := by
            simp [totalQty, hidq.symm]
          subst hq0eq
          simp only [if_pos hidq]
          omega
        · have hcons0 : totalQty (it :: rest) q0.id = totalQty rest q0.id := by
            simp [totalQty, Ne.symm hidq]
          subst hq0eq
          simp only [if_neg hidq]
          omega
      obtain ⟨st', hok, hprodFin⟩ := ih st2 hex2 hnn2 hcap2
      refine ⟨st', ?_, ?_⟩
      · simp only [procesarItems, hfp, if_neg hchk]
        exact hok
      · rw [hprodFin, hprod2, List.map_map]
        apply List.map_congr_left
        intro q hq
        by_cases hidq : q.id = it.producto_id
        · have hcons0 : totalQty (it :: rest) q.id = it.cantidad + totalQty rest q.id := by
            simp [totalQty, hidq.symm]
          rw [hidq] at hcons0
          simp [Function.comp, hidq, sub_sub, hcons0]
        · have hcons0 : totalQty (it :: rest) q.id = totalQty rest q.id := by
            simp [totalQty, Ne.symm hidq]
          simp [Function.comp, hidq, hcons0]

/-- Membership in the sales listing: exactly the `ventas` rows passing
the visibility and date conditions (the `ORDER BY` permutes, never adds
or removes). -/
theorem mem_listSales (st : State) (clk : Clock) (u : User) (filtro : Option String)
    (v : Venta) :
    v ∈ listSales st clk u filtro ↔
      v ∈ st.ventas ∧ visibleTo u v = true ∧ filtroCond clk filtro v.fecha = true := by
  unfold listSales
  rw [List.mem_mergeSort, List.mem_filter]
  simp [and_assoc]

/-- The customer-balance step never touches `productos`. -/
theorem actualizarSaldoVenta_productos (st : State) (u : User) (c : Option Int) (d : Rat) :
    (actualizarSaldoVenta st u c d).productos = st.productos := by
  unfold actualizarSaldoVenta
  cases c with
  | none => rfl
  | some cid =>
    dsimp only
    by_cases hd : 0 < d
    · rw [if_pos hd]
      rcases findCliente st cid with _ | cl
      · rfl
      · by_cases hr : u.rol = "vendedor"
        · by_cases hp : canEditCustomersTx st u.id <;> simp [hr, hp, addSaldo]
        · simp [hr, addSaldo]
    · rw [if_neg hd]

/-- Full characterization of `applyPayment` on the success path (valid
amount, existing sale, outstanding debt, authorized caller): the payment
is clamped, the sale's debt row is updated, and the customer decrement is
applied unless the caller is a vendedor without `can_edit_customers` (or
the sale has no customer). -/
theorem applyPayment_eq_ok (st : State) (u : User) (sid : Nat) (p : Rat) (v : Venta)
    (hv : findVenta st sid = some v) (hp : 0 < p) (hd : 0 < v.deuda)
    (hauth : u.rol = "admin" ∨ v.user_id = u.id) :
    applyPayment st u sid (some p) =
      (match v.cliente_id with
       | none => (.ok (min p v.deuda) v.deuda (v.deuda - min p v.deuda) false,
                  setDeudaVenta st sid (v.deuda - min p v.deuda))
       | some cid =>
         if u.rol = "vendedor" ∧ canEditCustomersTx st u.id = false then
           (.ok (min p v.deuda) v.deuda (v.deuda - min p v.deuda) false,
            setDeudaVenta st sid (v.deuda - min p v.deuda))
         else
           (.ok (min p v.deuda) v.deuda (v.deuda - min p v.deuda) true,
            subSaldo (setDeudaVenta st sid (v.deuda - min p v.deuda)) cid
              (min p v.deuda))) := by
  have h1 : ¬ (p ≤ 0) := not_le.mpr hp
  have h2 : ¬ (v.deuda ≤ 0) := not_le.mpr hd
  by_cases hadm : u.rol = "admin"
  · have hrol : ¬ (u.rol = "vendedor") := by simp [hadm]
    rcases hcid : v.cliente_id with _ | cid <;>
      simp [applyPayment, hv, h1, h2, hadm, hrol, hcid]
  · have huid : v.user_id = u.id := hauth.resolve_left hadm
    rcases hcid : v.cliente_id with _ | cid
    · simp [applyPayment, hv, h1, h2, huid, hcid]
    · by_cases hrol : u.rol = "vendedor"
      · by_cases hperm : canEditCustomersTx st u.id <;>
          simp [applyPayment, hv, h1, h2, huid, hrol, hperm, hcid]
      · simp [applyPayment, hv, h1, h2, huid, hrol, hcid]

/- ===== claims ===== -/

/-- C1: for a payment request of amount `p > 0` against an existing sale
with current debt `d > 0`, made by an authorized caller (admin or the
sale's creator), `applyPayment` records `paid = min(p, d)`, sets the
sale's stored debt to `d - paid = max(0, d - p) ≥ 0` (overpayment never
drives `deuda` below zero), and the response reports
`pago_registrado = paid`, `deuda_anterior = d`,
`deuda_actualizada = d - paid`. -/
theorem applyPayment_clamps (st : State) (u : User) (sid : Nat) (p : Rat) (v : Venta)
    (hv : findVenta st sid = some v) (hp : 0 < p) (hd : 0 < v.deuda)
    (hauth : u.rol = "admin" ∨ v.user_id = u.id) :
    (∃ b, (applyPayment st u sid (some p)).1 =
        .ok (min p v.deuda) v.deuda (v.deuda - min p v.deuda) b) ∧
    v.deuda - min p v.deuda = max 0 (v.deuda - p) ∧
    0 ≤ v.deuda - min p v.deuda ∧
    deudaOf (applyPayment st u sid (some p)).2 sid =
      some (v.deuda - min p v.deuda) := by
  have heq := applyPayment_eq_ok st u sid p v hv hp hd hauth
  have harith : v.deuda - min p v.deuda = max 0 (v.deuda - p) := by
    rcases le_total p v.deuda with hle | hle
    · rw [min_eq_left hle, max_eq_right (sub_nonneg.mpr hle)]
    · rw [min_eq_right hle, sub_self, max_eq_left (sub_nonpos.mpr hle)]
  have hnn : 0 ≤ v.deuda - min p v.deuda :=
    sub_nonneg.mpr (min_le_right p v.deuda)
  have hdeu : ∀ st' : State, st'.ventas = (setDeudaVenta st sid
      (v.deuda - min p v.deuda)).ventas →
      deudaOf st' sid = some (v.deuda - min p v.deuda) := by
    intro st' hventas
    have : deudaOf st' sid = deudaOf (setDeudaVenta st sid (v.deuda - min p v.deuda)) sid := by
      unfold deudaOf findVenta
      rw [hventas]
    rw [this, deudaOf_setDeudaVenta st sid _ v hv]
  rcases hcid : v.cliente_id with _ | cid
  · rw [hcid] at heq
    exact ⟨⟨false, by rw [heq]⟩, harith, hnn, hdeu _ (by rw [heq])⟩
  · rw [hcid] at heq
    dsimp only at heq
    by_cases hskip : u.rol = "vendedor" ∧ canEditCustomersTx st u.id = false
    · rw [if_pos hskip] at heq
      exact ⟨⟨false, by rw [heq]⟩, harith, hnn, hdeu _ (by rw [heq])⟩
    · rw [if_neg hskip] at heq
      exact ⟨⟨true, by rw [heq]⟩, harith, hnn, hdeu _ (by rw [heq]; rfl)⟩

/-- C1 witness: an admin pays 50 against the credit sale of debt 30: the
payment is clamped to 30 and the stored debt becomes 0. -/
theorem applyPayment_clamps_witness :
    (∃ b, (applyPayment stBase adminUser 1 (some 50)).1 = .ok 30 30 0 b) ∧
    deudaOf (applyPayment stBase adminUser 1 (some 50)).2 1 = some 0 := by
  have h := applyPayment_clamps stBase adminUser 1 50 ventaCredito (by rfl)
    (by norm_num) (by norm_num [ventaCredito]) (Or.inl rfl)
  have hmin : min (50 : Rat) ventaCredito.deuda = 30 := by
    norm_num [ventaCredito]
  constructor
  · obtain ⟨b, hb⟩ := h.1
    exact ⟨b, by rw [hb]; norm_num [ventaCredito, hmin]⟩
  · have := h.2.2.2
    rw [hmin] at this
    simpa [ventaCredito] using this

/-- C9: `applyPayment` rejects, leaving the state (hence the sale's
`deuda` and every customer balance) unchanged, exactly when a
precondition fails: an absent/NaN or non-positive amount yields the 400
invalid-amount error, a nonexistent sale yields 404, a sale without
outstanding debt yields the no-debt error, and a caller who is neither
admin nor the sale's creator yields 403; when every precondition holds the
request succeeds. -/
theorem applyPayment_rejects_iff_precondition_fails (st : State) (u : User) (sid : Nat) :
    (applyPayment st u sid none = (.montoInvalido, st)) ∧
    (∀ m : Rat, m ≤ 0 → applyPayment st u sid (some m) = (.montoInvalido, st)) ∧
    (∀ m : Rat, 0 < m → findVenta st sid = none →
      applyPayment st u sid (some m) = (.ventaNoEncontrada, st)) ∧
    (∀ (m : Rat) (v : Venta), 0 < m → findVenta st sid = some v → v.deuda ≤ 0 →
      applyPayment st u sid (some m) = (.sinDeuda, st)) ∧
    (∀ (m : Rat) (v : Venta), 0 < m → findVenta st sid = some v → 0 < v.deuda →
      u.rol ≠ "admin" → v.user_id ≠ u.id →
      applyPayment st u sid (some m) = (.prohibido, st)) ∧
    (∀ (m : Rat) (v : Venta), 0 < m → findVenta st sid = some v → 0 < v.deuda →
      (u.rol = "admin" ∨ v.user_id = u.id) →
      ∃ b, (applyPayment st u sid (some m)).1 =
        .ok (min m v.deuda) v.deuda (v.deuda - min m v.deuda) b) := by
  refine ⟨rfl, ?_, ?_, ?_, ?_, ?_⟩
  · intro m hm
    simp [applyPayment, hm]
  · intro m hm hnone
    simp [applyPayment, not_le.mpr hm, hnone]
  · intro m v hm hv hd0
    simp [applyPayment, not_le.mpr hm, hv, hd0]
  · intro m v hm hv hd hr hu
    simp [applyPayment, not_le.mpr hm, hv, not_le.mpr hd, hr, hu]
  · intro m v hm hv hd hauth
    have heq := applyPayment_eq_ok st u sid m v hv hm hd hauth
    rcases hcid : v.cliente_id with _ | cid
    · rw [hcid] at heq
      exact ⟨false, by rw [heq]⟩
    · rw [hcid] at heq
      dsimp only at heq
      by_cases hskip : u.rol = "vendedor" ∧ canEditCustomersTx st u.id = false
      · rw [if_pos hskip] at heq
        exact ⟨false, by rw [heq]⟩
      · rw [if_neg hskip] at heq
        exact ⟨true, by rw [heq]⟩

/-- C9 witness: a payment against a nonexistent sale id returns 404 with
the state untouched, and a vendedor who did not create the sale gets 403
with the state untouched. -/
theorem applyPayment_rejects_witness :
    applyPayment stBase adminUser 99 (some 5) = (.ventaNoEncontrada, stBase) ∧
    applyPayment stBase vendedor3 1 (some 5) = (.prohibido, stBase) := by
  refine ⟨(applyPayment_rejects_iff_precondition_fails stBase adminUser 99).2.2.1 5
    (by norm_num) (by rfl), ?_⟩
  exact (applyPayment_rejects_iff_precondition_fails stBase vendedor3 1).2.2.2.2.1 5
    ventaCredito (by norm_num) (by rfl) (by norm_num [ventaCredito])
    (by simp [vendedor3]) (by simp [ventaCredito, vendedor3])

/-- C4: the code's stock decrement is NOT an atomic conditional update:
the per-item body is a `SELECT` of the stock followed by a check of that
snapshot and an unconditional `UPDATE stock = stock - $1`.  Under the
interleaving in which both of two concurrent single-item sales (each of
quantity 1, stock 1) run their `SELECT` before either runs its `UPDATE`,
both pass the stock precheck (neither failure flag is set) and the final
committed stock is -1: the overdraw the claim says cannot happen. -/
theorem stockDecrement_race_overdraw :
    (raceRun 1 1 [true, false, true, false] (raceStart 1)).failedA = false ∧
    (raceRun 1 1 [true, false, true, false] (raceStart 1)).failedB = false ∧
    (raceRun 1 1 [true, false, true, false] (raceStart 1)).stock = -1 ∧
    (raceRun 1 1 [true, false, true, false] (raceStart 1)).stock < 0 := by
  refine ⟨rfl, rfl, rfl, ?_⟩
  decide

/-- C2: when some line item of a validated sale request references a
missing product or asks for more than that product's current stock (all
quantities being nonnegative), the whole operation fails with the thrown
transaction error — which carries the failing product's id or name — and
the returned state is exactly the pre-request state: no `ventas` row, no
`venta_detalles` row, no stock change and no customer-balance change is
persisted (all-or-nothing, never per-item best-effort). -/
theorem recordSale_allOrNothing (st : State) (u : User) (i : RawSaleInput)
    (items : List Item)
    (hval : datosIncompletos i = false)
    (hitems : i.items = some items)
    (hnn : ∀ it ∈ items, 0 ≤ it.cantidad)
    (hbad : ∃ it ∈ items, badItem st it) :
    ∃ e, recordSale st u i = (.txError e, st) := by
  have hbad' : ∃ it ∈ items, badItem (stConVenta st i) it := hbad
  obtain ⟨e, he⟩ := procesarItems_error st.nextVentaId items (stConVenta st i) hnn hbad'
  refine ⟨e, ?_⟩
  simp [recordSale, hval, hitems, he]

/-- C2 witness: a sale whose single item references the nonexistent
product 99 is rejected with a transaction error and the database is
exactly as before. -/
theorem recordSale_allOrNothing_witness :
    ∃ e, recordSale stBase adminUser inputProductoFaltante = (.txError e, stBase) := by
  refine recordSale_allOrNothing stBase adminUser inputProductoFaltante
    [{ producto_id := 99, cantidad := 1, precio := 10 }] (by rfl) (by rfl)
    (by intro it h; simp at h; subst h; norm_num) ?_
  exact ⟨{ producto_id := 99, cantidad := 1, precio := 10 }, by simp, Or.inl (by rfl)⟩

/-- C3: a validated sale request whose items all reference existing
products, with nonnegative quantities summing per product to at most each
product's current stock (stocks being nonnegative, which the per-product
bound already implies for unreferenced products), succeeds: the response
is the success body, each referenced product's stock afterwards equals
its pre-sale stock minus the total quantity sold of it, unreferenced
stocks are unchanged, and no product's stock is negative. -/
theorem recordSale_success_stock (st : State) (u : User) (i : RawSaleInput)
    (items : List Item)
    (hval : datosIncompletos i = false)
    (hitems : i.items = some items)
    (hex : ∀ it ∈ items, (findProducto st it.producto_id).isSome)
    (hnn : ∀ it ∈ items, 0 ≤ it.cantidad)
    (hcap : ∀ p ∈ st.productos, totalQty items p.id ≤ p.stock) :
    (recordSale st u i).1 = .ok st.nextVentaId (deudaFinal i) ∧
    (recordSale st u i).2.productos = st.productos.map
      (fun p => { p with stock := p.stock - totalQty items p.id }) ∧
    ∀ p ∈ (recordSale st u i).2.productos, 0 ≤ p.stock := by
  have hex' : ∀ it ∈ items, (findProducto (stConVenta st i) it.producto_id).isSome := hex
  have hcap' : ∀ p ∈ (stConVenta st i).productos, totalQty items p.id ≤ p.stock := hcap
  obtain ⟨st2, hok, hprod⟩ :=
    procesarItems_ok st.nextVentaId items (stConVenta st i) hex' hnn hcap'
  have hres : recordSale st u i =
      (.ok st.nextVentaId (deudaFinal i),
       actualizarSaldoVenta st2 u (clienteIdFinal i) (deudaFinal i)) := by
    simp [recordSale, hval, hitems, hok]
  have hprodFin : (recordSale st u i).2.productos = st.productos.map
      (fun p => { p with stock := p.stock - totalQty items p.id }) := by
    rw [hres]
    dsimp only
    rw [actualizarSaldoVenta_productos, hprod]
    rfl
  refine ⟨by rw [hres], hprodFin, ?_⟩
  intro p hp
  rw [hprodFin] at hp
  obtain ⟨q, hqmem, hqeq⟩ := List.mem_map.mp hp
  have hcapq := hcap q hqmem
  subst hqeq
  exact sub_nonneg.mpr hcapq

/-- C3 witness: selling 2 units of product 5 (stock 10) succeeds and its
stock becomes 8. -/
theorem recordSale_success_stock_witness :
    (recordSale stBase adminUser inputVentaAgua).1 =
      .ok stBase.nextVentaId (deudaFinal inputVentaAgua) ∧
    (recordSale stBase adminUser inputVentaAgua).2.productos =
      [{ prodAgua with stock := 8 }] := by
  have h := recordSale_success_stock stBase adminUser inputVentaAgua
    [{ producto_id := 5, cantidad := 2, precio := 50 }] (by rfl) (by rfl)
    (by intro it hm; simp at hm; subst hm; decide)
    (by intro it hm; simp at hm; subst hm; norm_num)
    (by intro p hm; simp [stBase] at hm; subst hm; decide)
  refine ⟨h.1, ?_⟩
  rw [h.2.1]
  decide

/-- C5: in `recordSale` (validated input, items processed successfully,
a customer id supplied, debt positive, customer existing) and in
`applyPayment` (existing sale with a customer, positive amount,
outstanding debt, authorized caller): a vendedor whose resolved
permissions lack `can_edit_customers` leaves every customer balance
unchanged while the sale/payment itself still succeeds (`applyPayment`
reporting `cliente_actualizado = false`); any other caller gets the
customer's `saldo_pendiente` incremented by the recorded debt
(`recordSale`) resp. decremented by the clamped paid amount
(`applyPayment`, reporting `cliente_actualizado = true`). -/
theorem customerBalance_permission_gate
    (st : State) (u : User) (i : RawSaleInput) (st2 : State) (cid : Int) (c : Cliente)
    (sid : Nat) (p : Rat) (v : Venta) :
    (datosIncompletos i = false →
     procesarItems st.nextVentaId (i.items.getD []) (stConVenta st i) = .ok st2 →
     clienteIdFinal i = some cid →
     0 < deudaFinal i →
     findCliente st cid = some c →
     ((u.rol = "vendedor" → canEditCustomersTx st u.id = false →
        (recordSale st u i).2.clientes = st.clientes ∧
        (recordSale st u i).1 = .ok st.nextVentaId (deudaFinal i)) ∧
      ((u.rol = "vendedor" → canEditCustomersTx st u.id = true) →
        saldoOf (recordSale st u i).2 cid = some (c.saldo_pendiente + deudaFinal i) ∧
        (recordSale st u i).1 = .ok st.nextVentaId (deudaFinal i)))) ∧
    (findVenta st sid = some v → 0 < p → 0 < v.deuda →
     (u.rol = "admin" ∨ v.user_id = u.id) →
     v.cliente_id = some cid →
     findCliente st cid = some c →
     ((u.rol = "vendedor" → canEditCustomersTx st u.id = false →
        (applyPayment st u sid (some p)).2.clientes = st.clientes ∧
        (applyPayment st u sid (some p)).1 =
          .ok (min p v.deuda) v.deuda (v.deuda - min p v.deuda) false) ∧
      ((u.rol = "vendedor" → canEditCustomersTx st u.id = true) →
        saldoOf (applyPayment st u sid (some p)).2 cid =
          some (c.saldo_pendiente - min p v.deuda) ∧
        (applyPayment st u sid (some p)).1 =
          .ok (min p v.deuda) v.deuda (v.deuda - min p v.deuda) true))) := by
  constructor
  · intro hval hproc hcid hdeb hc
    have hpres := procesarItems_preserves st.nextVentaId (i.items.getD [])
      (stConVenta st i) st2 hproc
    have hcli2 : st2.clientes = st.clientes := hpres.1
    have hup2 : st2.user_permissions = st.user_permissions := hpres.2.2.1
    have hres : recordSale st u i =
        (.ok st.nextVentaId (deudaFinal i),
         actualizarSaldoVenta st2 u (some cid) (deudaFinal i)) := by
      simp [recordSale, hval, hproc, hcid]
    have hfc2 : findCliente st2 cid = some c := by
      unfold findCliente at hc ⊢
      rw [hcli2]
      exact hc
    have hedit2 : canEditCustomersTx st2 u.id = canEditCustomersTx st u.id := by
      unfold canEditCustomersTx lookupPermissions
      rw [hup2]
    constructor
    · intro hrol hperm
      have hskip : actualizarSaldoVenta st2 u (some cid) (deudaFinal i) = st2 := by
        unfold actualizarSaldoVenta
        simp [hdeb, hfc2, hrol, hedit2, hperm]
      rw [hres]
      exact ⟨by dsimp only; rw [hskip, hcli2], rfl⟩
    · intro himp
      have hupd : actualizarSaldoVenta st2 u (some cid) (deudaFinal i) =
          addSaldo st2 cid (deudaFinal i) := by
        unfold actualizarSaldoVenta
        by_cases hrol : u.rol = "vendedor"
        · simp [hdeb, hfc2, hrol, hedit2, himp hrol]
        · simp [hdeb, hfc2, hrol]
      rw [hres]
      refine ⟨?_, rfl⟩
      dsimp only
      rw [hupd]
      have hsal := saldoOf_addSaldo st2 cid (deudaFinal i) c hfc2
      rw [hsal]
  · intro hv hp hd hauth hvcid hc
    have heq := applyPayment_eq_ok st u sid p v hv hp hd hauth
    rw [hvcid] at heq
    dsimp only at heq
    constructor
    · intro hrol hperm
      rw [if_pos ⟨hrol, hperm⟩] at heq
      rw [heq]
      exact ⟨rfl, rfl⟩
    · intro himp
      have hcond : ¬ (u.rol = "vendedor" ∧ canEditCustomersTx st u.id = false) := by
        rintro ⟨hr, hf⟩
        rw [himp hr] at hf
        cases hf
      rw [if_neg hcond] at heq
      rw [heq]
      refine ⟨?_, rfl⟩
      have hc' : findCliente (setDeudaVenta st sid (v.deuda - min p v.deuda)) cid =
          some c := hc
      exact saldoOf_subSaldo _ cid _ c hc'

/-- C5 witness: the vendedor who created the credit sale but has no
stored permissions (hence no `can_edit_customers`) records a payment that
succeeds with `cliente_actualizado = false` and leaves the customer table
untouched; an admin recording a new credit sale of debt 30 for the same
customer raises the customer's balance from 30 to 60. -/
theorem customerBalance_permission_gate_witness :
    ((applyPayment stBase vendedor2 1 (some 10)).2.clientes = stBase.clientes ∧
     (applyPayment stBase vendedor2 1 (some 10)).1 = .ok 10 30 20 false) ∧
    (saldoOf (recordSale stBase adminUser inputVentaCredito).2 7 = some 60 ∧
     (recordSale stBase adminUser inputVentaCredito).1 = .ok 2 30) := by
  constructor
  · have h := (customerBalance_permission_gate stBase vendedor2 inputVentaCredito
        (stConVenta stBase inputVentaCredito) 7 clienteJuan 1 10 ventaCredito).2
      (by rfl) (by norm_num) (by norm_num [ventaCredito]) (Or.inr (by decide))
      (by rfl) (by rfl)
    have h2 := h.1 rfl (by rfl)
    have hmin : min (10 : Rat) ventaCredito.deuda = 10 := by
      norm_num [ventaCredito]
    refine ⟨h2.1, ?_⟩
    rw [h2.2, hmin]
    norm_num [ventaCredito]
  · have h := (customerBalance_permission_gate stBase adminUser inputVentaCredito
        (stConVenta stBase inputVentaCredito) 7 clienteJuan 1 10 ventaCredito).1
      (by rfl) (by rfl) (by rfl) (by norm_num [deudaFinal, inputVentaCredito])
      (by rfl)
    have h2 := h.2 (fun hr => absurd hr (by simp [adminUser]))
    constructor
    · rw [h2.1]
      norm_num [clienteJuan, deudaFinal, inputVentaCredito]
    · rw [h2.2]
      norm_num [stBase, deudaFinal, inputVentaCredito]

/-- C8 counterexample: a request whose `total` is the present but
non-numeric string value abc is NOT rejected — the code's line-82 check
only tests `total == null` — so the sale is recorded and state is
persisted, contradicting the claim that such inputs are rejected with
InvalidInput before any transaction and with nothing persisted. -/
theorem recordSale_nonNumeric_total_accepted :
    (recordSale stBase adminUser inputTotalString).1 =
      .ok stBase.nextVentaId (deudaFinal inputTotalString) ∧
    (recordSale stBase adminUser inputTotalString).2 ≠ stBase := by
  refine ⟨rfl, ?_⟩
  decide

/-- C8 amended: `recordSale` rejects with InvalidInput (400), before
opening any transaction and without persisting anything, exactly the
inputs in which `total`, `recibido` or `cambio` is absent (null), or
`paymentMethod` is absent or empty, or `userId` is absent or the falsy 0,
or `lineItems` is not an array; presence is all that is checked, so
present non-numeric values pass; every input passing this validation
(including an empty `lineItems` array) proceeds to the transactional
algorithm, which returns either a transaction error or success. -/
theorem recordSale_validation_characterization (st : State) (u : User) (i : RawSaleInput) :
    ((recordSale st u i).1 = .invalidInput ↔
      (i.total = .jnull ∨ i.recibido = .jnull ∨ i.cambio = .jnull ∨
       i.metodo_pago = "" ∨ i.user_id = none ∨ i.user_id = some 0 ∨
       i.items = none)) ∧
    ((recordSale st u i).1 = .invalidInput → recordSale st u i = (.invalidInput, st)) ∧
    ((recordSale st u i).1 ≠ .invalidInput →
      (∃ e, (recordSale st u i).1 = .txError e) ∨
       ∃ d, (recordSale st u i).1 = .ok st.nextVentaId d) := by
  have hcond : (datosIncompletos i = true) ↔
      (i.total = .jnull ∨ i.recibido = .jnull ∨ i.cambio = .jnull ∨
       i.metodo_pago = "" ∨ i.user_id = none ∨ i.user_id = some 0 ∨
       i.items = none) := by
    simp [datosIncompletos, isJNull_iff, userIdFalsy_iff, Option.isNone_iff_eq_none]
    tauto
  by_cases hdat : datosIncompletos i = true
  · have hrs : recordSale st u i = (.invalidInput, st) := by
      simp [recordSale, hdat]
    refine ⟨?_, fun _ => hrs, fun hne => absurd (by rw [hrs]) hne⟩
    rw [hrs]
    simpa using hcond.mp hdat
  · have key : (∃ e, (recordSale st u i).1 = .txError e) ∨
        ∃ d, (recordSale st u i).1 = .ok st.nextVentaId d := by
      cases hpi : procesarItems st.nextVentaId (i.items.getD []) (stConVenta st i) with
      | error e => exact Or.inl ⟨e, by simp [recordSale, hdat, hpi]⟩
      | ok st2 => exact Or.inr ⟨deudaFinal i, by simp [recordSale, hdat, hpi]⟩
    have hne : (recordSale st u i).1 ≠ .invalidInput := by
      rcases key with ⟨e, he⟩ | ⟨d, hd⟩
      · rw [he]; exact fun h => SaleResponse.noConfusion h
      · rw [hd]; exact fun h => SaleResponse.noConfusion h
    refine ⟨?_, fun h => absurd h hne, fun _ => key⟩
    constructor
    · intro h; exact absurd h hne
    · intro hC; exact absurd (hcond.mpr hC) hdat

/-- C6 counterexample: the handler's keyword for the day filter is the
Spanish `hoy`, not `today`: with `filtro=today` the code matches none of
its keyword branches and adds NO date condition, so a visible sale whose
timestamp lies outside the `[start_of_day, start_of_next_day)` window is
still returned — contradicting the claim that the keyword `today`
restricts to that window. -/
theorem listSales_today_keyword_unrecognized :
    ventaCredito ∈ listSales stBase demoClock adminUser (some "today") ∧
    ¬ (demoClock.startOfDay ≤ ventaCredito.fecha ∧
       ventaCredito.fecha < demoClock.nextDay) := by
  constructor
  · exact (mem_listSales stBase demoClock adminUser (some "today") ventaCredito).mpr
      ⟨by simp [stBase], by decide, by decide⟩
  · decide

/-- C6 amended: the recognised filter keywords are the Spanish `hoy`,
`semana`, `mes` and `anio`; with each of them `listSales` returns exactly
the visible sales whose timestamp lies in the corresponding
calendar-aligned half-open window (`[start_of_day, start_of_next_day)`
for `hoy`), and with no filter (or any unrecognised keyword, such as the
English `today`) all visible sales are returned. -/
theorem listSales_filter_windows (st : State) (clk : Clock) (u : User) (v : Venta) :
    (v ∈ listSales st clk u (some "hoy") ↔
      v ∈ st.ventas ∧ visibleTo u v = true ∧
      (clk.startOfDay ≤ v.fecha ∧ v.fecha < clk.nextDay)) ∧
    (v ∈ listSales st clk u (some "semana") ↔
      v ∈ st.ventas ∧ visibleTo u v = true ∧
      (clk.startOfWeek ≤ v.fecha ∧ v.fecha < clk.nextWeek)) ∧
    (v ∈ listSales st clk u (some "mes") ↔
      v ∈ st.ventas ∧ visibleTo u v = true ∧
      (clk.startOfMonth ≤ v.fecha ∧ v.fecha < clk.nextMonth)) ∧
    (v ∈ listSales st clk u (some "anio") ↔
      v ∈ st.ventas ∧ visibleTo u v = true ∧
      (clk.startOfYear ≤ v.fecha ∧ v.fecha < clk.nextYear)) ∧
    (v ∈ listSales st clk u none ↔ v ∈ st.ventas ∧ visibleTo u v = true) := by
  refine ⟨?_, ?_, ?_, ?_, ?_⟩ <;>
    · rw [mem_listSales]
      simp [filtroCond]

/-- C7: a vendedor calling the sales listing only ever receives sales
whose `user_id` is their own id; an admin receives exactly the sales
passing the (optional) date filter. -/
theorem listSales_role_scoping (st : State) (clk : Clock) (u : User)
    (filtro : Option String) (v : Venta) :
    (u.rol = "vendedor" → v ∈ listSales st clk u filtro → v.user_id = u.id) ∧
    (u.rol = "admin" →
      (v ∈ listSales st clk u filtro ↔
        v ∈ st.ventas ∧ filtroCond clk filtro v.fecha = true)) := by
  constructor
  · intro hrol hmem
    have h := (mem_listSales st clk u filtro v).mp hmem
    have hvis := h.2.1
    unfold visibleTo at hvis
    rw [if_pos hrol] at hvis
    simpa using hvis
  · intro hrol
    rw [mem_listSales]
    have : visibleTo u v = true := by
      unfold visibleTo
      rw [if_neg (by simp [hrol])]
    simp [this]

/-- C7 witness: the vendedor with id 2 sees the sale they created (and
the theorem forces its `user_id` to equal their id), while the admin's
listing contains the sale outright. -/
theorem listSales_role_scoping_witness :
    ventaCredito.user_id = vendedor2.id ∧
    ventaCredito ∈ listSales stBase demoClock adminUser none := by
  constructor
  · exact (listSales_role_scoping stBase demoClock vendedor2 none ventaCredito).1 rfl
      ((mem_listSales stBase demoClock vendedor2 none ventaCredito).mpr
        ⟨by simp [stBase], by decide, by decide⟩)
  · exact ((listSales_role_scoping stBase demoClock adminUser none ventaCredito).2 rfl).mpr
      ⟨by simp [stBase], by decide⟩

/-- C10: the sale-detail lookup enforces only the `can_view_sales` gate
and no vendedor-ownership restriction: a caller failing the gate is
denied, and any two callers who pass the gate — regardless of their ids,
roles or relation to the sale's creator — receive the identical line-item
list for every sale id: the result does not depend on the caller. -/
theorem getSaleDetalles_gate_only (st : State) (u1 u2 : User) (idParam : Option Nat) :
    (verificarPermisosVentas st u1 (·.can_view_sales) = false →
      getSaleDetalles st u1 idParam = .denied) ∧
    (verificarPermisosVentas st u1 (·.can_view_sales) = true →
     verificarPermisosVentas st u2 (·.can_view_sales) = true →
     getSaleDetalles st u1 idParam = getSaleDetalles st u2 idParam) := by
  constructor
  · intro h
    unfold getSaleDetalles
    rw [h]
    rfl
  · intro h1 h2
    unfold getSaleDetalles
    rw [h1, h2]

/-- C10 witness: the admin and a vendedor who is NOT the sale's creator
(sale 1 was created by user 2; the vendedor has id 3 and the default
permission set, whose `can_view_sales` is true) receive the identical
detail rows for sale 1. -/
theorem getSaleDetalles_gate_only_witness :
    getSaleDetalles stDetalles adminUser (some 1) =
      getSaleDetalles stDetalles vendedor3 (some 1) ∧
    getSaleDetalles stDetalles adminUser (some 1) ≠ .denied := by
  constructor
  · exact (getSaleDetalles_gate_only stDetalles adminUser vendedor3 (some 1)).2
      (by rfl) (by rfl)
  · decide

/-- C8 witness: a request with `total` absent is rejected with the 400
response and the state untouched, before any transaction. -/
theorem recordSale_validation_witness :
    recordSale stBase adminUser inputSinTotal = (.invalidInput, stBase) := by
  exact (recordSale_validation_characterization stBase adminUser inputSinTotal).2.1
    ((recordSale_validation_characterization stBase adminUser inputSinTotal).1.mpr
      (Or.inl rfl))

end PosSales
